import Mathlib

/-!
BasicRetailApp — Invoice Lifecycle & Totals Engine, shallow embedding.

Shallow embedding of the core state and operations of `src/App.tsx`
(customer CRUD, invoice CRUD, totals engine, invoice numbering) together
with the record types of the repository's type declarations and the
default settings of `src/constants.ts`.

Modelling conventions:
* JavaScript numbers are modelled as exact rationals (`ℚ`); the source
  performs native floating-point arithmetic with no explicit rounding, and
  IEEE-754 rounding is outside this embedding.
* Wall-clock reads (`new Date().toISOString()`, `getFullYear()`) are
  passed in as explicit parameters (`now : String`, `currentYear : Nat`).
  `addInvoice`/`updateInvoice` read the clock twice within one synchronous
  handler; both reads are modelled as the same instant.
* `Math.random`-based id generation (`generateId`) is modelled as an
  externally supplied string parameter: the source gives no uniqueness
  guarantee, so the generated id is an arbitrary environment input.
* React `setState` mutations are modelled as explicit state passing on an
  `AppState` record; a TypeScript early `return` before any `setState`
  call is modelled as returning the input state unchanged (or `none`).
-/

namespace RetailApp

/-- Record `Customer` (`types.ts`): optional fields become `Option`. -/
structure Customer where
  id : String
  name : String
  phone : String
  whatsapp : Option String
  email : Option String
  address : Option String
  createdAt : String
  updatedAt : String
deriving Repr, DecidableEq

/-- Record `InvoiceItem` (`types.ts`); numeric fields as exact rationals. -/
structure InvoiceItem where
  id : String
  description : String
  quantity : ℚ
  unitPrice : ℚ
  total : ℚ
deriving Repr, DecidableEq

/-- Invoice status union type `'Draft' | 'Sent' | 'Paid' | 'Overdue'`. -/
inductive InvoiceStatus where
  | Draft
  | Sent
  | Paid
  | Overdue
deriving Repr, DecidableEq

/-- Record `Invoice` (`types.ts`). -/
structure Invoice where
  id : String
  customerId : String
  customerName : String
  invoiceDate : String
  dueDate : String
  items : List InvoiceItem
  subTotal : ℚ
  taxRate : ℚ
  taxAmount : ℚ
  totalAmount : ℚ
  notes : Option String
  status : InvoiceStatus
  createdAt : String
  updatedAt : String
deriving Repr, DecidableEq

/-- Record `AppSettings` (`types.ts`). -/
structure AppSettings where
  invoicePrefix : String
  nextInvoiceNumber : Nat
  defaultTaxRate : ℚ
deriving Repr, DecidableEq

/-- The three state collections held by the `App` component
(`useState` hooks for customers, invoices, settings). -/
structure AppState where
  customers : List Customer
  invoices : List Invoice
  settings : AppSettings
deriving Repr, DecidableEq

/-- Constant `DEFAULT_SETTINGS` of `src/constants.ts`. -/
def DEFAULT_SETTINGS : AppSettings :=
  { invoicePrefix := "INV-", nextInvoiceNumber := 1, defaultTaxRate := 0 }

/-- The app's state before any operation: empty collections and the
default settings (the persistence gateway falls back to these defaults). -/
def initialState : AppState :=
  { customers := [], invoices := [], settings := DEFAULT_SETTINGS }

/-- The bundle of derived amounts returned by `calculateInvoiceTotals`
(`Pick<Invoice, 'subTotal' | 'taxAmount' | 'totalAmount'>`). -/
structure Totals where
  subTotal : ℚ
  taxAmount : ℚ
  totalAmount : ℚ
deriving Repr, DecidableEq

/-- Function `calculateInvoiceTotals` (App.tsx lines 218-223):
`subTotal = items.reduce((sum, item) => sum + item.total, 0)`;
`taxAmount = subTotal * taxRate`; `totalAmount = subTotal + taxAmount`. -/
def calculateInvoiceTotals (items : List InvoiceItem) (taxRate : ℚ) : Totals :=
  let subTotal := items.foldl (fun sum item => sum + item.total) 0
  let taxAmount := subTotal * taxRate
  let totalAmount := subTotal + taxAmount
  { subTotal := subTotal, taxAmount := taxAmount, totalAmount := totalAmount }

/-! ## Customer Registry (App.tsx lines 190-215) -/

/-- Caller-supplied customer fields:
`Omit<Customer, 'id' | 'createdAt' | 'updatedAt'>`. -/
structure CustomerData where
  name : String
  phone : String
  whatsapp : Option String
  email : Option String
  address : Option String
deriving Repr, DecidableEq

/-- Function `addCustomer` (App.tsx lines 190-199): builds a new record from the
form data, a generated id (`generateId()`, an environment input here) and
the clock, and appends it to the collection. -/
def addCustomer (st : AppState) (customerData : CustomerData)
    (generatedId now : String) : AppState :=
  let newCustomer : Customer :=
    { id := generatedId
      name := customerData.name
      phone := customerData.phone
      whatsapp := customerData.whatsapp
      email := customerData.email
      address := customerData.address
      createdAt := now
      updatedAt := now }
  { st with customers := st.customers ++ [newCustomer] }

/-- Function `updateCustomer` (App.tsx lines 201-204): maps over the collection,
replacing every record whose id matches `updatedCustomer.id` by
`{ ...updatedCustomer, updatedAt: now }`. -/
def updateCustomer (st : AppState) (updatedCustomer : Customer)
    (now : String) : AppState :=
  { st with customers := st.customers.map (fun c =>
      if c.id == updatedCustomer.id then { updatedCustomer with updatedAt := now }
      else c) }

/-- Function `deleteCustomer` (App.tsx lines 206-213): if some invoice references
the customer, return early (no state change, modelled by the `false`
flag); otherwise filter the customer out. -/
def deleteCustomer (st : AppState) (customerId : String) : Bool × AppState :=
  if st.invoices.any (fun inv => inv.customerId == customerId) then
    (false, st)
  else
    (true, { st with customers := st.customers.filter (fun c => c.id != customerId) })

/-- Function `findCustomerById` (App.tsx line 215): `customers.find(c => c.id === customerId)`. -/
def findCustomerById (customers : List Customer) (customerId : String) :
    Option Customer :=
  customers.find? (fun c => c.id == customerId)

/-! ## Invoice Numbering (App.tsx lines 225-229) -/

/-- JavaScript `String.prototype.padStart(n, c)` for a single pad
character: prepend copies of `c` until length `n`; a string already of
length `≥ n` is returned unchanged (never truncated). -/
def padStart (s : String) (n : Nat) (c : Char) : String :=
  ⟨List.replicate (n - s.length) c ++ s.data⟩

/-- Function `getNextInvoiceId` (App.tsx lines 225-229):
``` `${prefix}${currentYear}-${nextInvoiceNumber.toString().padStart(4, '0')}` ```
with `currentYear` read from the wall clock at generation time. -/
def getNextInvoiceId (settings : AppSettings) (currentYear : Nat) : String :=
  settings.invoicePrefix ++ toString currentYear ++ "-"
    ++ padStart (toString settings.nextInvoiceNumber) 4 '0'

/-! ## Invoice Registry (App.tsx lines 231-284) -/

/-- Caller-supplied fields for `addInvoice`: `Omit<Invoice, 'id' |
'createdAt' | 'updatedAt' | 'subTotal' | 'taxAmount' | 'totalAmount' |
'status' | 'customerName' | 'items'>`.  The static type excludes
`status`, but the object literal writes `status: 'Draft'` after spreading
`...invoiceData`, so any `status` property present at runtime is
overridden; `suppliedStatus` models such an extra runtime property and is
never read by `addInvoice`. -/
structure InvoiceDraft where
  customerId : String
  invoiceDate : String
  dueDate : String
  taxRate : ℚ
  notes : Option String
  suppliedStatus : Option InvoiceStatus
deriving Repr, DecidableEq

/-- Function `addInvoice` (App.tsx lines 231-252): resolve the customer (return
`null` without mutating anything when missing), compute totals, build the
new invoice with the generated id, the snapshotted customer name, status
`'Draft'` and both timestamps `now`, append it, and bump
`nextInvoiceNumber` by one.  Returns the pair (returned id, new state). -/
def addInvoice (st : AppState) (invoiceData : InvoiceDraft)
    (items : List InvoiceItem) (now : String) (currentYear : Nat) :
    Option String × AppState :=
  match findCustomerById st.customers invoiceData.customerId with
  | none => (none, st)
  | some customer =>
    let totals := calculateInvoiceTotals items invoiceData.taxRate
    let newInvoice : Invoice :=
      { id := getNextInvoiceId st.settings currentYear
        customerId := invoiceData.customerId
        customerName := customer.name
        invoiceDate := invoiceData.invoiceDate
        dueDate := invoiceData.dueDate
        items := items
        subTotal := totals.subTotal
        taxRate := invoiceData.taxRate
        taxAmount := totals.taxAmount
        totalAmount := totals.totalAmount
        notes := invoiceData.notes
        status := InvoiceStatus.Draft
        createdAt := now
        updatedAt := now }
    (some newInvoice.id,
      { st with
          invoices := st.invoices ++ [newInvoice]
          settings := { st.settings with
            nextInvoiceNumber := st.settings.nextInvoiceNumber + 1 } })

/-- Caller-supplied fields for `updateInvoice`: `Omit<Invoice,
'createdAt' | 'updatedAt' | 'subTotal' | 'taxAmount' | 'totalAmount' |
'customerName' | 'items'>` — unlike creation this includes `id` and
`status`. -/
structure InvoiceUpdate where
  id : String
  customerId : String
  invoiceDate : String
  dueDate : String
  taxRate : ℚ
  notes : Option String
  status : InvoiceStatus
deriving Repr, DecidableEq

/-- Function `updateInvoice` (App.tsx lines 254-277): resolve the customer and the
original invoice (each early `return` before any mutation is modelled by
`none`); rebuild the record with recomputed totals, refreshed
`updatedAt`, and `createdAt` preserved from the original; replace every
stored invoice whose id matches. -/
def updateInvoice (st : AppState) (updatedInvoiceData : InvoiceUpdate)
    (items : List InvoiceItem) (now : String) : Option AppState :=
  match findCustomerById st.customers updatedInvoiceData.customerId with
  | none => none
  | some customer =>
    match st.invoices.find? (fun inv => inv.id == updatedInvoiceData.id) with
    | none => none
    | some originalInvoice =>
      let totals := calculateInvoiceTotals items updatedInvoiceData.taxRate
      let updatedInvoice : Invoice :=
        { id := updatedInvoiceData.id
          customerId := updatedInvoiceData.customerId
          customerName := customer.name
          invoiceDate := updatedInvoiceData.invoiceDate
          dueDate := updatedInvoiceData.dueDate
          items := items
          subTotal := totals.subTotal
          taxRate := updatedInvoiceData.taxRate
          taxAmount := totals.taxAmount
          totalAmount := totals.totalAmount
          notes := updatedInvoiceData.notes
          status := updatedInvoiceData.status
          createdAt := originalInvoice.createdAt
          updatedAt := now }
      some { st with invoices := st.invoices.map (fun inv =>
        if inv.id == updatedInvoice.id then updatedInvoice else inv) }

/-- Function `deleteInvoice` (App.tsx lines 279-282): unconditionally filter out
every invoice whose id matches; never fails. -/
def deleteInvoice (st : AppState) (invoiceId : String) : AppState :=
  { st with invoices := st.invoices.filter (fun inv => inv.id != invoiceId) }

/-! ## Line-item editing (App.tsx lines 546-557) -/

/-- The runtime value handed to `handleItemChange` for the numeric
fields, whose TypeScript type is `string | number`. -/
inductive EditValue where
  | num (q : ℚ)
  | str (s : String)
deriving Repr, DecidableEq

/-- The field/value combinations the form can pass to
`handleItemChange` (TypeScript: `field : K extends keyof InvoiceItem`
with a `string | number` value for the numeric fields). -/
inductive ItemEdit where
  | setDescription (s : String)
  | setQuantity (v : EditValue)
  | setUnitPrice (v : EditValue)
deriving Repr, DecidableEq

/-- The numeric coercion of `handleItemChange` (App.tsx lines 549-552):
a string goes through `parseFloat`, and `NaN` (modelled by `none`)
becomes `0`.  `parseFloat` is a JavaScript builtin, so it is an abstract
parameter here. -/
def coerceNumeric (parseFloat : String → Option ℚ) : EditValue → ℚ
  | .num q => q
  | .str s => (parseFloat s).getD 0

/-- Function `handleItemChange` (App.tsx lines 546-557): overwrite the edited
field (coercing numeric input), then recompute that row's `total` as
`quantity * unitPrice`.  The source's `(quantity || 0)` guards only turn
`NaN` into `0`; after coercion no `NaN` remains, and `0 || 0` is `0`, so
they are the identity in this exact-arithmetic model.  The form only
calls this with an index of an existing row; an out-of-range index is
modelled as a no-op. -/
def applyItemEdit (parseFloat : String → Option ℚ) (item : InvoiceItem) :
    ItemEdit → InvoiceItem
  | .setDescription s => { item with description := s }
  | .setQuantity v => { item with quantity := coerceNumeric parseFloat v }
  | .setUnitPrice v => { item with unitPrice := coerceNumeric parseFloat v }

def handleItemChange (parseFloat : String → Option ℚ)
    (items : List InvoiceItem) (index : Nat) (edit : ItemEdit) :
    List InvoiceItem :=
  match items[index]? with
  | none => items
  | some item =>
    let item1 := applyItemEdit parseFloat item edit
    items.set index { item1 with total := item1.quantity * item1.unitPrice }

/-! ## Operation traces over the registries

The UI event loop runs one registry operation at a time (App.tsx is a
single synchronous component).  A `RegOp` packages one call to a
customer/invoice registry operation together with its environment
inputs (generated id, clock readings). -/

/-- One registry operation with its environment inputs. -/
inductive RegOp where
  | addCust (data : CustomerData) (generatedId now : String)
  | updCust (updatedCustomer : Customer) (now : String)
  | delCust (customerId : String)
  | addInv (invoiceData : InvoiceDraft) (items : List InvoiceItem)
      (now : String) (currentYear : Nat)
  | updInv (updatedInvoiceData : InvoiceUpdate) (items : List InvoiceItem)
      (now : String)
  | delInv (invoiceId : String)
deriving Repr, DecidableEq

/-- The state reached after one registry operation (a failed operation
leaves the state unchanged, as every early `return` in the source
happens before any `setState` call). -/
def step (st : AppState) : RegOp → AppState
  | .addCust data generatedId now => addCustomer st data generatedId now
  | .updCust updatedCustomer now => updateCustomer st updatedCustomer now
  | .delCust customerId => (deleteCustomer st customerId).2
  | .addInv invoiceData items now currentYear =>
      (addInvoice st invoiceData items now currentYear).2
  | .updInv updatedInvoiceData items now =>
      (updateInvoice st updatedInvoiceData items now).getD st
  | .delInv invoiceId => deleteInvoice st invoiceId

/-- The sequence numbers consumed by one operation: a successful invoice
creation consumes the current `nextInvoiceNumber`, every other operation
consumes nothing. -/
def stepNums (st : AppState) : RegOp → List Nat
  | .addInv invoiceData items now currentYear =>
      if (addInvoice st invoiceData items now currentYear).1.isSome then
        [st.settings.nextInvoiceNumber]
      else []
  | _ => []

/-- Run a list of operations, collecting the final state and the
sequence numbers consumed by the successful invoice creations, in
order. -/
def runTrace : AppState → List RegOp → AppState × List Nat
  | st, [] => (st, [])
  | st, op :: ops =>
    let rest := runTrace (step st op) ops
    (rest.1, stepNums st op ++ rest.2)

/-- The ids currently held by the customer registry, in storage order. -/
def custIds (st : AppState) : List String :=
  st.customers.map Customer.id

/-- A trace is id-fresh when every customer insertion along it supplies
a generated id not already present at that point.  `generateId` is
`Math.random`-based and the source never checks for collisions, so this
is an assumption about the environment, not a property of the code. -/
def FreshTrace : AppState → List RegOp → Prop
  | _, [] => True
  | st, op :: ops =>
    (match op with
     | .addCust _ generatedId _ => generatedId ∉ custIds st
     | _ => True)
    ∧ FreshTrace (step st op) ops

/-! ## Concrete fixtures used by witness theorems -/

/-- A concrete customer record used by witnesses. -/
def sampleCustomer : Customer :=
  { id := "c1", name := "Acme", phone := "555-1111", whatsapp := none,
    email := none, address := none, createdAt := "t0", updatedAt := "t0" }

/-- A concrete state holding one customer and no invoices. -/
def sampleState : AppState :=
  { customers := [sampleCustomer], invoices := [], settings := DEFAULT_SETTINGS }

/-- A concrete invoice draft referencing `sampleCustomer`; it carries a
non-`Draft` runtime status to exercise the status-override rule. -/
def sampleDraft : InvoiceDraft :=
  { customerId := "c1", invoiceDate := "2024-01-01", dueDate := "2024-01-31",
    taxRate := 1/10, notes := none, suppliedStatus := some InvoiceStatus.Paid }

/-- A concrete line item with `total = quantity × unitPrice`. -/
def sampleItem : InvoiceItem :=
  { id := "i1", description := "Widget", quantity := 3, unitPrice := 10, total := 30 }

/-- The form data of `sampleCustomer` (no id, no timestamps). -/
def sampleCustomerData : CustomerData :=
  { name := "Acme", phone := "555-1111", whatsapp := none, email := none,
    address := none }

/-- A second concrete line item, distinct from `sampleItem`. -/
def sampleItem2 : InvoiceItem :=
  { id := "i2", description := "Gadget", quantity := 2, unitPrice := 5, total := 10 }

/-- A concrete stored invoice (the result of the spec's worked example). -/
def sampleInvoice : Invoice :=
  { id := "INV-2024-0001", customerId := "c1", customerName := "Acme",
    invoiceDate := "2024-01-01", dueDate := "2024-01-31", items := [sampleItem],
    subTotal := 30, taxRate := 1/10, taxAmount := 3, totalAmount := 33,
    notes := none, status := InvoiceStatus.Draft, createdAt := "t1", updatedAt := "t1" }

/-- A concrete state holding one customer and one invoice. -/
def sampleState2 : AppState :=
  { customers := [sampleCustomer], invoices := [sampleInvoice],
    settings := { invoicePrefix := "INV-", nextInvoiceNumber := 2, defaultTaxRate := 0 } }

/-- A concrete update payload for `sampleInvoice`. -/
def sampleUpdate : InvoiceUpdate :=
  { id := "INV-2024-0001", customerId := "c1", invoiceDate := "2024-01-01",
    dueDate := "2024-02-15", taxRate := 0, notes := none,
    status := InvoiceStatus.Sent }

/-! ## Totals Engine theorems -/

lemma foldl_add_total (items : List InvoiceItem) (a : ℚ) :
    items.foldl (fun sum item => sum + item.total) a
      = a + (items.map InvoiceItem.total).sum := by
  induction items generalizing a with
  | nil => simp
  | cons x xs ih => simp [ih, add_assoc]

/-- Claim C1: For every list of invoice items and every tax rate,
`calculateInvoiceTotals` returns `subTotal` equal to the sum of the
items' `total` fields (`0` when the list is empty), `taxAmount` equal to
`subTotal` multiplied by the tax rate, and `totalAmount` equal to
`subTotal` plus `taxAmount`. -/
theorem calculateInvoiceTotals_spec (items : List InvoiceItem) (taxRate : ℚ) :
    (calculateInvoiceTotals items taxRate).subTotal
        = (items.map InvoiceItem.total).sum
      ∧ (calculateInvoiceTotals [] taxRate).subTotal = 0
      ∧ (calculateInvoiceTotals items taxRate).taxAmount
        = (calculateInvoiceTotals items taxRate).subTotal * taxRate
      ∧ (calculateInvoiceTotals items taxRate).totalAmount
        = (calculateInvoiceTotals items taxRate).subTotal
          + (calculateInvoiceTotals items taxRate).taxAmount := by
  refine ⟨?_, ?_, ?_, ?_⟩ <;>
    simp [calculateInvoiceTotals, foldl_add_total]

/-- Claim C6: For every list of invoice items and every tax rate, the
`subTotal` returned by `calculateInvoiceTotals` is the same for every
permutation of the item list (and does not depend on the tax rate). -/
theorem calculateInvoiceTotals_perm (l₁ l₂ : List InvoiceItem) (r₁ r₂ : ℚ)
    (h : l₁.Perm l₂) :
    (calculateInvoiceTotals l₁ r₁).subTotal
      = (calculateInvoiceTotals l₂ r₂).subTotal := by
  have h1 := (h.map InvoiceItem.total).sum_eq
  simp [calculateInvoiceTotals, foldl_add_total, h1]

/-- Witness for C6: swapping two concrete items leaves the subtotal
unchanged. -/
theorem calculateInvoiceTotals_perm_witness :
    (calculateInvoiceTotals [sampleItem, sampleItem2] (1/10)).subTotal
      = (calculateInvoiceTotals [sampleItem2, sampleItem] 0).subTotal :=
  calculateInvoiceTotals_perm [sampleItem, sampleItem2]
    [sampleItem2, sampleItem] (1/10) 0
    (List.Perm.swap sampleItem2 sampleItem [])

/-! ## Padding lemmas -/

lemma padStart_of_le (s : String) (n : Nat) (c : Char) (h : n ≤ s.length) :
    padStart s n c = s := by
  show String.mk (List.replicate (n - s.length) c ++ s.data) = s
  rw [Nat.sub_eq_zero_of_le h]
  exact rfl

lemma padStart_length_of_le (s : String) (n : Nat) (c : Char)
    (h : s.length ≤ n) : (padStart s n c).length = n := by
  show (List.replicate (n - s.length) c ++ s.data).length = n
  have hd : s.data.length = s.length := rfl
  rw [List.length_append, List.length_replicate, hd]
  omega

/-! ## Invoice creation -/

/-- Claim C2: For every create-invoice call whose `customerId` resolves to
an existing customer, the appended invoice has id formatted as the
settings prefix, then the current year, then a dash, then the sequence
number zero-padded to 4 digits (padding never truncates a longer
number), has its `customerName` snapshotted from the resolved customer,
has totals computed by `calculateInvoiceTotals`, has status forced to
`Draft` regardless of any status supplied by the caller, has both
timestamps set to `now`, and `nextInvoiceNumber` is incremented by
exactly 1. -/
theorem addInvoice_success_spec (st : AppState) (d : InvoiceDraft)
    (items : List InvoiceItem) (now : String) (currentYear : Nat)
    (customer : Customer)
    (h : findCustomerById st.customers d.customerId = some customer) :
    (addInvoice st d items now currentYear).1
        = some (getNextInvoiceId st.settings currentYear)
      ∧ (∃ inv,
          (addInvoice st d items now currentYear).2.invoices
              = st.invoices ++ [inv]
            ∧ inv.id = st.settings.invoicePrefix ++ toString currentYear ++ "-"
                ++ padStart (toString st.settings.nextInvoiceNumber) 4 '0'
            ∧ inv.customerName = customer.name
            ∧ inv.subTotal = (calculateInvoiceTotals items d.taxRate).subTotal
            ∧ inv.taxAmount = (calculateInvoiceTotals items d.taxRate).taxAmount
            ∧ inv.totalAmount = (calculateInvoiceTotals items d.taxRate).totalAmount
            ∧ inv.status = InvoiceStatus.Draft
            ∧ inv.createdAt = now
            ∧ inv.updatedAt = now)
      ∧ (addInvoice st d items now currentYear).2.settings.nextInvoiceNumber
          = st.settings.nextInvoiceNumber + 1
      ∧ (∀ s : String, 4 ≤ s.length → padStart s 4 '0' = s)
      ∧ (∀ s : String, s.length ≤ 4 → (padStart s 4 '0').length = 4) := by
  unfold addInvoice
  rw [h]
  exact ⟨rfl, ⟨_, rfl, rfl, rfl, rfl, rfl, rfl, rfl, rfl, rfl⟩, rfl,
    fun s hs => padStart_of_le s 4 '0' hs,
    fun s hs => padStart_length_of_le s 4 '0' hs⟩

/-- Witness for C2 at a concrete input; the generated id also matches the
spec's worked example `INV-2024-0001`. -/
theorem addInvoice_success_spec_witness :
    (addInvoice sampleState sampleDraft [sampleItem] "t1" 2024).1
        = some "INV-2024-0001"
      ∧ ((addInvoice sampleState sampleDraft [sampleItem] "t1" 2024).1
            = some (getNextInvoiceId sampleState.settings 2024)
          ∧ (∃ inv,
              (addInvoice sampleState sampleDraft [sampleItem] "t1" 2024).2.invoices
                  = sampleState.invoices ++ [inv]
                ∧ inv.id = sampleState.settings.invoicePrefix ++ toString 2024 ++ "-"
                    ++ padStart (toString sampleState.settings.nextInvoiceNumber) 4 '0'
                ∧ inv.customerName = sampleCustomer.name
                ∧ inv.subTotal = (calculateInvoiceTotals [sampleItem] sampleDraft.taxRate).subTotal
                ∧ inv.taxAmount = (calculateInvoiceTotals [sampleItem] sampleDraft.taxRate).taxAmount
                ∧ inv.totalAmount = (calculateInvoiceTotals [sampleItem] sampleDraft.taxRate).totalAmount
                ∧ inv.status = InvoiceStatus.Draft
                ∧ inv.createdAt = "t1"
                ∧ inv.updatedAt = "t1")
          ∧ (addInvoice sampleState sampleDraft [sampleItem] "t1" 2024).2.settings.nextInvoiceNumber
              = sampleState.settings.nextInvoiceNumber + 1
          ∧ (∀ s : String, 4 ≤ s.length → padStart s 4 '0' = s)
          ∧ (∀ s : String, s.length ≤ 4 → (padStart s 4 '0').length = 4)) :=
  ⟨by decide,
   addInvoice_success_spec sampleState sampleDraft [sampleItem] "t1" 2024
     sampleCustomer (by decide)⟩

/-- Claim C3: For every create-invoice call whose `customerId` does not
resolve to an existing customer, the operation fails (returns no id) and
the state — in particular the invoice collection and
`nextInvoiceNumber` — is exactly as before the call. -/
theorem addInvoice_missing_customer_spec (st : AppState) (d : InvoiceDraft)
    (items : List InvoiceItem) (now : String) (currentYear : Nat)
    (h : findCustomerById st.customers d.customerId = none) :
    addInvoice st d items now currentYear = (none, st)
      ∧ (addInvoice st d items now currentYear).2.invoices = st.invoices
      ∧ (addInvoice st d items now currentYear).2.settings.nextInvoiceNumber
          = st.settings.nextInvoiceNumber := by
  unfold addInvoice
  rw [h]
  exact ⟨rfl, rfl, rfl⟩

/-- Witness for C3: creating an invoice in the empty initial state fails
and changes nothing. -/
theorem addInvoice_missing_customer_spec_witness :
    addInvoice initialState sampleDraft [sampleItem] "t1" 2024
        = (none, initialState)
      ∧ (addInvoice initialState sampleDraft [sampleItem] "t1" 2024).2.invoices
          = initialState.invoices
      ∧ (addInvoice initialState sampleDraft [sampleItem] "t1" 2024).2.settings.nextInvoiceNumber
          = initialState.settings.nextInvoiceNumber :=
  addInvoice_missing_customer_spec initialState sampleDraft [sampleItem] "t1" 2024
    (by decide)

/-! ## Invoice update and deletion, customer deletion -/

/-- Claim C7: For every update of an invoice whose id exists in the
registry and whose `customerId` resolves, the replaced record keeps the
original invoice's `createdAt` unchanged while `updatedAt` is refreshed
and totals are recomputed (with customers and settings untouched); if
the invoice id does not exist, the update fails and the invoice
collection is unchanged. -/
theorem updateInvoice_spec :
    (∀ (st : AppState) (u : InvoiceUpdate) (items : List InvoiceItem)
        (now : String) (customer : Customer) (originalInvoice : Invoice),
      findCustomerById st.customers u.customerId = some customer →
      st.invoices.find? (fun inv => inv.id == u.id) = some originalInvoice →
      ∃ upd,
        updateInvoice st u items now
            = some { st with invoices := st.invoices.map (fun inv =>
                if inv.id == u.id then upd else inv) }
          ∧ upd.id = u.id
          ∧ upd.createdAt = originalInvoice.createdAt
          ∧ upd.updatedAt = now
          ∧ upd.subTotal = (calculateInvoiceTotals items u.taxRate).subTotal
          ∧ upd.taxAmount = (calculateInvoiceTotals items u.taxRate).taxAmount
          ∧ upd.totalAmount = (calculateInvoiceTotals items u.taxRate).totalAmount)
      ∧ (∀ (st : AppState) (u : InvoiceUpdate) (items : List InvoiceItem)
          (now : String),
        st.invoices.find? (fun inv => inv.id == u.id) = none →
        updateInvoice st u items now = none
          ∧ ((updateInvoice st u items now).getD st).invoices = st.invoices) := by
  constructor
  · intro st u items now customer originalInvoice hc hi
    unfold updateInvoice
    rw [hc, hi]
    exact ⟨_, rfl, rfl, rfl, rfl, rfl, rfl, rfl⟩
  · intro st u items now hi
    unfold updateInvoice
    cases hc : findCustomerById st.customers u.customerId with
    | none => exact ⟨rfl, rfl⟩
    | some customer => rw [hi]; exact ⟨rfl, rfl⟩

/-- Witness for C7: updating the stored sample invoice succeeds and
keeps `createdAt`; updating against an empty invoice list fails. -/
theorem updateInvoice_spec_witness :
    (∃ upd,
        updateInvoice sampleState2 sampleUpdate [sampleItem] "t2"
            = some { sampleState2 with invoices := sampleState2.invoices.map (fun inv =>
                if inv.id == sampleUpdate.id then upd else inv) }
          ∧ upd.id = sampleUpdate.id
          ∧ upd.createdAt = sampleInvoice.createdAt
          ∧ upd.updatedAt = "t2"
          ∧ upd.subTotal = (calculateInvoiceTotals [sampleItem] sampleUpdate.taxRate).subTotal
          ∧ upd.taxAmount = (calculateInvoiceTotals [sampleItem] sampleUpdate.taxRate).taxAmount
          ∧ upd.totalAmount = (calculateInvoiceTotals [sampleItem] sampleUpdate.taxRate).totalAmount)
      ∧ (updateInvoice sampleState sampleUpdate [sampleItem] "t2" = none
          ∧ ((updateInvoice sampleState sampleUpdate [sampleItem] "t2").getD sampleState).invoices
              = sampleState.invoices) :=
  ⟨updateInvoice_spec.1 sampleState2 sampleUpdate [sampleItem] "t2"
      sampleCustomer sampleInvoice rfl rfl,
   updateInvoice_spec.2 sampleState sampleUpdate [sampleItem] "t2" rfl⟩

lemma all_filter_self {α : Type} (l : List α) (p : α → Bool) :
    (l.filter p).all p = true := by
  rw [List.all_eq_true]
  intro x hx
  exact List.of_mem_filter hx

/-- Claim C8: For every customer id, deleting that customer is rejected
when at least one invoice's `customerId` equals it, and in that case the
whole state (customer and invoice collections in particular) is exactly
as before the call; when no invoice references it, every record with
that id is removed and invoices and settings are untouched. -/
theorem deleteCustomer_spec :
    (∀ (st : AppState) (customerId : String),
      st.invoices.any (fun inv => inv.customerId == customerId) = true →
      deleteCustomer st customerId = (false, st))
      ∧ (∀ (st : AppState) (customerId : String),
        st.invoices.any (fun inv => inv.customerId == customerId) = false →
        deleteCustomer st customerId
            = (true, { st with customers := st.customers.filter (fun c =>
                c.id != customerId) })
          ∧ ((deleteCustomer st customerId).2.customers.all (fun c =>
              c.id != customerId)) = true
          ∧ (deleteCustomer st customerId).2.invoices = st.invoices
          ∧ (deleteCustomer st customerId).2.settings = st.settings) := by
  constructor
  · intro st customerId h
    simp [deleteCustomer, h]
  · intro st customerId h
    refine ⟨by simp [deleteCustomer, h], ?_, by simp [deleteCustomer, h],
      by simp [deleteCustomer, h]⟩
    simp only [deleteCustomer, h, Bool.false_eq_true, if_false]
    exact all_filter_self st.customers (fun c => c.id != customerId)

/-- Witness for C8: deleting the referenced customer of `sampleState2`
is rejected; deleting the unreferenced customer of `sampleState` removes
it. -/
theorem deleteCustomer_spec_witness :
    deleteCustomer sampleState2 "c1" = (false, sampleState2)
      ∧ (deleteCustomer sampleState "c1"
            = (true, { sampleState with customers := sampleState.customers.filter (fun c =>
                c.id != "c1") })
          ∧ ((deleteCustomer sampleState "c1").2.customers.all (fun c =>
              c.id != "c1")) = true
          ∧ (deleteCustomer sampleState "c1").2.invoices = sampleState.invoices
          ∧ (deleteCustomer sampleState "c1").2.settings = sampleState.settings) :=
  ⟨deleteCustomer_spec.1 sampleState2 "c1" (by decide),
   deleteCustomer_spec.2 sampleState "c1" (by decide)⟩

/-- Claim C10: For every invoice id, `deleteInvoice` removes every invoice
whose id equals the given id (all of them, when several share an id),
keeps every invoice whose id differs, never fails, and leaves the
customer collection and the settings unchanged. -/
theorem deleteInvoice_spec :
    (∀ (st : AppState) (invoiceId : String),
      deleteInvoice st invoiceId
        = { st with invoices := st.invoices.filter (fun inv =>
            inv.id != invoiceId) })
      ∧ (∀ (st : AppState) (invoiceId : String),
        ((deleteInvoice st invoiceId).invoices.all (fun inv =>
            inv.id != invoiceId)) = true)
      ∧ (∀ (st : AppState) (invoiceId : String) (inv : Invoice),
        inv ∈ st.invoices → inv.id ≠ invoiceId →
        inv ∈ (deleteInvoice st invoiceId).invoices)
      ∧ (∀ (st : AppState) (invoiceId : String),
        (deleteInvoice st invoiceId).customers = st.customers
          ∧ (deleteInvoice st invoiceId).settings = st.settings) := by
  refine ⟨fun st invoiceId => rfl, ?_, ?_, fun st invoiceId => ⟨rfl, rfl⟩⟩
  · intro st invoiceId
    exact all_filter_self st.invoices (fun inv => inv.id != invoiceId)
  · intro st invoiceId inv hmem hne
    exact List.mem_filter.mpr ⟨hmem, bne_iff_ne.mpr hne⟩

/-- Witness for C10: deleting an unrelated id keeps the stored sample
invoice; the other conjuncts are instantiated at the same state. -/
theorem deleteInvoice_spec_witness :
    deleteInvoice sampleState2 "X"
        = { sampleState2 with invoices := sampleState2.invoices.filter (fun inv =>
            inv.id != "X") }
      ∧ ((deleteInvoice sampleState2 "X").invoices.all (fun inv =>
          inv.id != "X")) = true
      ∧ sampleInvoice ∈ (deleteInvoice sampleState2 "X").invoices
      ∧ (deleteInvoice sampleState2 "X").customers = sampleState2.customers
      ∧ (deleteInvoice sampleState2 "X").settings = sampleState2.settings :=
  ⟨deleteInvoice_spec.1 sampleState2 "X",
   deleteInvoice_spec.2.1 sampleState2 "X",
   deleteInvoice_spec.2.2.1 sampleState2 "X" sampleInvoice
     (by simp [sampleState2]) (by decide),
   deleteInvoice_spec.2.2.2 sampleState2 "X"⟩

/-! ## Line-item editing theorems -/

lemma getElem?_set_self {α : Type} (l : List α) (i : Nat) (a : α)
    (h : i < l.length) : (l.set i a)[i]? = some a := by
  induction l generalizing i with
  | nil => simp at h
  | cons x xs ih =>
    cases i with
    | zero => simp [List.set]
    | succ n =>
      have hn : n < xs.length := by simpa using h
      simpa [List.set] using ih n hn

lemma handleItemChange_getElem (parseFloat : String → Option ℚ)
    (items : List InvoiceItem) (index : Nat) (edit : ItemEdit)
    (itm : InvoiceItem)
    (h : (handleItemChange parseFloat items index edit)[index]? = some itm) :
    ∃ item, items[index]? = some item
      ∧ itm = { applyItemEdit parseFloat item edit with
          total := (applyItemEdit parseFloat item edit).quantity
            * (applyItemEdit parseFloat item edit).unitPrice } := by
  unfold handleItemChange at h
  cases hx : items[index]? with
  | none => rw [hx] at h; rw [hx] at h; cases h
  | some item =>
    rw [hx] at h
    have hlt : index < items.length := by
      by_contra hge
      rw [List.getElem?_eq_none (by omega)] at hx
      cases hx
    rw [getElem?_set_self _ _ _ (by simpa using hlt)] at h
    injection h with h1
    exact ⟨item, rfl, h1.symm⟩

/-- Claim C9: For every edit of a line item (any field), the edited row's
`total` afterwards equals its `quantity` multiplied by its `unitPrice`;
and a string supplied for quantity or unit price that `parseFloat`
cannot parse (`NaN`, modelled by `none`) is coerced to `0` before that
multiplication, so the field becomes `0` and the row's `total` becomes
`0`, rather than the edit being rejected. -/
theorem handleItemChange_spec :
    (∀ (parseFloat : String → Option ℚ) (items : List InvoiceItem)
        (index : Nat) (edit : ItemEdit) (itm : InvoiceItem),
      (handleItemChange parseFloat items index edit)[index]? = some itm →
      itm.total = itm.quantity * itm.unitPrice)
      ∧ (∀ (parseFloat : String → Option ℚ) (items : List InvoiceItem)
          (index : Nat) (s : String) (itm : InvoiceItem),
        parseFloat s = none →
        (handleItemChange parseFloat items index
            (ItemEdit.setQuantity (EditValue.str s)))[index]? = some itm →
        itm.quantity = 0 ∧ itm.total = 0)
      ∧ (∀ (parseFloat : String → Option ℚ) (items : List InvoiceItem)
          (index : Nat) (s : String) (itm : InvoiceItem),
        parseFloat s = none →
        (handleItemChange parseFloat items index
            (ItemEdit.setUnitPrice (EditValue.str s)))[index]? = some itm →
        itm.unitPrice = 0 ∧ itm.total = 0) := by
  refine ⟨?_, ?_, ?_⟩
  · intro parseFloat items index edit itm h
    obtain ⟨item, -, hitm⟩ := handleItemChange_getElem parseFloat items index edit itm h
    simp [hitm]
  · intro parseFloat items index s itm hpf h
    obtain ⟨item, -, hitm⟩ :=
      handleItemChange_getElem parseFloat items index
        (ItemEdit.setQuantity (EditValue.str s)) itm h
    simp [hitm, applyItemEdit, coerceNumeric, hpf]
  · intro parseFloat items index s itm hpf h
    obtain ⟨item, -, hitm⟩ :=
      handleItemChange_getElem parseFloat items index
        (ItemEdit.setUnitPrice (EditValue.str s)) itm h
    simp [hitm, applyItemEdit, coerceNumeric, hpf]

/-- Witness for C9: a concrete numeric edit keeps `total = quantity *
unitPrice`, and an unparsable quantity string zeroes the row, for a
`parseFloat` model that parses nothing. -/
theorem handleItemChange_spec_witness :
    ((handleItemChange (fun _ => none) [sampleItem] 0
          (ItemEdit.setQuantity (EditValue.num 4)))[0]?.all (fun itm =>
        itm.total == itm.quantity * itm.unitPrice)) = true
      ∧ ((handleItemChange (fun _ => none) [sampleItem] 0
            (ItemEdit.setQuantity (EditValue.str "abc")))[0]?.all (fun itm =>
          itm.quantity == 0 && itm.total == 0)) = true := by
  constructor
  · cases hx : (handleItemChange (fun _ => none) [sampleItem] 0
        (ItemEdit.setQuantity (EditValue.num 4)))[0]? with
    | none => rfl
    | some itm =>
      have := handleItemChange_spec.1 (fun _ => none) [sampleItem] 0
        (ItemEdit.setQuantity (EditValue.num 4)) itm hx
      simp [Option.all_some, this]
  · cases hx : (handleItemChange (fun _ => none) [sampleItem] 0
        (ItemEdit.setQuantity (EditValue.str "abc")))[0]? with
    | none => rfl
    | some itm =>
      have := handleItemChange_spec.2.1 (fun _ => none) [sampleItem] 0
        "abc" itm rfl hx
      simp [Option.all_some, this.1, this.2]

/-! ## Numbering policy across operation traces -/

lemma addInvoice_isSome_counter (st : AppState) (d : InvoiceDraft)
    (items : List InvoiceItem) (now : String) (currentYear : Nat)
    (h : (addInvoice st d items now currentYear).1.isSome = true) :
    (addInvoice st d items now currentYear).2.settings.nextInvoiceNumber
      = st.settings.nextInvoiceNumber + 1 := by
  unfold addInvoice at h ⊢
  cases hc : findCustomerById st.customers d.customerId with
  | none => rw [hc] at h; simp at h
  | some customer => rfl

lemma addInvoice_none_counter (st : AppState) (d : InvoiceDraft)
    (items : List InvoiceItem) (now : String) (currentYear : Nat)
    (h : (addInvoice st d items now currentYear).1 = none) :
    (addInvoice st d items now currentYear).2.settings.nextInvoiceNumber
      = st.settings.nextInvoiceNumber := by
  unfold addInvoice at h ⊢
  cases hc : findCustomerById st.customers d.customerId with
  | none => rfl
  | some customer => rw [hc] at h; simp at h

lemma updateInvoice_settings (st : AppState) (u : InvoiceUpdate)
    (items : List InvoiceItem) (now : String) :
    ((updateInvoice st u items now).getD st).settings = st.settings := by
  unfold updateInvoice
  cases hc : findCustomerById st.customers u.customerId with
  | none => rfl
  | some customer =>
    cases hi : st.invoices.find? (fun inv => inv.id == u.id) with
    | none => rfl
    | some originalInvoice => rfl

lemma deleteCustomer_settings (st : AppState) (customerId : String) :
    (deleteCustomer st customerId).2.settings = st.settings := by
  unfold deleteCustomer
  split <;> rfl

lemma step_counter_cases (st : AppState) (op : RegOp) :
    (step st op).settings.nextInvoiceNumber = st.settings.nextInvoiceNumber
      ∨ ((∃ d items now currentYear,
            op = RegOp.addInv d items now currentYear
              ∧ (addInvoice st d items now currentYear).1.isSome = true)
          ∧ (step st op).settings.nextInvoiceNumber
            = st.settings.nextInvoiceNumber + 1) := by
  cases op with
  | addCust data generatedId now => exact Or.inl rfl
  | updCust updatedCustomer now => exact Or.inl rfl
  | delCust customerId =>
    exact Or.inl (congrArg AppSettings.nextInvoiceNumber
      (deleteCustomer_settings st customerId))
  | addInv d items now currentYear =>
    cases hs : (addInvoice st d items now currentYear).1 with
    | none => exact Or.inl (addInvoice_none_counter st d items now currentYear hs)
    | some newId =>
      refine Or.inr ⟨⟨d, items, now, currentYear, rfl, ?_⟩, ?_⟩
      · rw [hs]; rfl
      · exact addInvoice_isSome_counter st d items now currentYear (by rw [hs]; rfl)
  | updInv u items now =>
    exact Or.inl (congrArg AppSettings.nextInvoiceNumber
      (updateInvoice_settings st u items now))
  | delInv invoiceId => exact Or.inl rfl

lemma step_counter_le (st : AppState) (op : RegOp) :
    st.settings.nextInvoiceNumber ≤ (step st op).settings.nextInvoiceNumber := by
  rcases step_counter_cases st op with h | ⟨-, h⟩ <;> omega

lemma stepNums_mem (st : AppState) (op : RegOp) (n : Nat)
    (h : n ∈ stepNums st op) :
    n = st.settings.nextInvoiceNumber
      ∧ (step st op).settings.nextInvoiceNumber
        = st.settings.nextInvoiceNumber + 1 := by
  cases op with
  | addCust data generatedId now => simp [stepNums] at h
  | updCust updatedCustomer now => simp [stepNums] at h
  | delCust customerId => simp [stepNums] at h
  | addInv d items now currentYear =>
    rw [stepNums] at h
    split at h
    next hsome =>
      have h1 : n = st.settings.nextInvoiceNumber := by simpa using h
      exact ⟨h1, addInvoice_isSome_counter st d items now currentYear hsome⟩
    next => simp at h
  | updInv u items now => simp [stepNums] at h
  | delInv invoiceId => simp [stepNums] at h

lemma stepNums_pairwise (st : AppState) (op : RegOp) :
    List.Pairwise (· < ·) (stepNums st op) := by
  cases op with
  | addInv d items now currentYear => rw [stepNums]; split <;> simp
  | addCust data generatedId now => simp [stepNums]
  | updCust updatedCustomer now => simp [stepNums]
  | delCust customerId => simp [stepNums]
  | updInv u items now => simp [stepNums]
  | delInv invoiceId => simp [stepNums]

lemma runTrace_lb : ∀ (ops : List RegOp) (st : AppState) (n : Nat),
    n ∈ (runTrace st ops).2 → st.settings.nextInvoiceNumber ≤ n := by
  intro ops
  induction ops with
  | nil => intro st n h; simp [runTrace] at h
  | cons op ops ih =>
    intro st n h
    rw [runTrace] at h
    rcases List.mem_append.mp h with h1 | h2
    · exact le_of_eq (stepNums_mem st op n h1).1.symm
    · exact le_trans (step_counter_le st op) (ih (step st op) n h2)

lemma runTrace_pairwise : ∀ (ops : List RegOp) (st : AppState),
    List.Pairwise (· < ·) (runTrace st ops).2 := by
  intro ops
  induction ops with
  | nil => intro st; simp [runTrace]
  | cons op ops ih =>
    intro st
    rw [runTrace, List.pairwise_append]
    refine ⟨stepNums_pairwise st op, ih (step st op), ?_⟩
    intro a ha b hb
    obtain ⟨ha1, ha2⟩ := stepNums_mem st op a ha
    have hb1 := runTrace_lb ops (step st op) b hb
    omega

/-- Claim C4: Across every sequence of registry operations,
`settings.nextInvoiceNumber` changes only on a successful invoice
creation and then by exactly `+1`; it is never changed by invoice
update or invoice deletion; and the sequence numbers consumed by the
successful creations along any trace are strictly increasing, so a
sequence number is never reused even after an invoice is deleted. -/
theorem nextInvoiceNumber_policy :
    (∀ (st : AppState) (d : InvoiceDraft) (items : List InvoiceItem)
        (now : String) (currentYear : Nat),
      ((addInvoice st d items now currentYear).1.isSome = true →
        (addInvoice st d items now currentYear).2.settings.nextInvoiceNumber
          = st.settings.nextInvoiceNumber + 1)
        ∧ ((addInvoice st d items now currentYear).1 = none →
          (addInvoice st d items now currentYear).2.settings.nextInvoiceNumber
            = st.settings.nextInvoiceNumber))
      ∧ (∀ (st : AppState) (u : InvoiceUpdate) (items : List InvoiceItem)
          (now : String),
        ((updateInvoice st u items now).getD st).settings.nextInvoiceNumber
          = st.settings.nextInvoiceNumber)
      ∧ (∀ (st : AppState) (invoiceId : String),
        (deleteInvoice st invoiceId).settings.nextInvoiceNumber
          = st.settings.nextInvoiceNumber)
      ∧ (∀ (st : AppState) (op : RegOp),
        (step st op).settings.nextInvoiceNumber = st.settings.nextInvoiceNumber
          ∨ ((∃ d items now currentYear,
                op = RegOp.addInv d items now currentYear
                  ∧ (addInvoice st d items now currentYear).1.isSome = true)
              ∧ (step st op).settings.nextInvoiceNumber
                = st.settings.nextInvoiceNumber + 1))
      ∧ (∀ (st : AppState) (ops : List RegOp),
        List.Pairwise (· < ·) (runTrace st ops).2) :=
  ⟨fun st d items now currentYear =>
      ⟨addInvoice_isSome_counter st d items now currentYear,
       addInvoice_none_counter st d items now currentYear⟩,
   fun st u items now =>
      congrArg AppSettings.nextInvoiceNumber (updateInvoice_settings st u items now),
   fun _ _ => rfl,
   step_counter_cases,
   fun st ops => runTrace_pairwise ops st⟩

/-- Witness for C4: a successful creation bumps the counter of the
sample state by one, a failed creation leaves the initial state's
counter alone, update and deletion leave it alone, and the numbers
consumed along a concrete create/delete/create trace are strictly
increasing. -/
theorem nextInvoiceNumber_policy_witness :
    (addInvoice sampleState sampleDraft [sampleItem] "t1" 2024).2.settings.nextInvoiceNumber
        = sampleState.settings.nextInvoiceNumber + 1
      ∧ (addInvoice initialState sampleDraft [sampleItem] "t1" 2024).2.settings.nextInvoiceNumber
        = initialState.settings.nextInvoiceNumber
      ∧ ((updateInvoice sampleState2 sampleUpdate [sampleItem] "t2").getD sampleState2).settings.nextInvoiceNumber
        = sampleState2.settings.nextInvoiceNumber
      ∧ (deleteInvoice sampleState2 "INV-2024-0001").settings.nextInvoiceNumber
        = sampleState2.settings.nextInvoiceNumber
      ∧ List.Pairwise (· < ·)
          (runTrace sampleState
            [RegOp.addInv sampleDraft [sampleItem] "t1" 2024,
             RegOp.delInv "INV-2024-0001",
             RegOp.addInv sampleDraft [sampleItem] "t3" 2024]).2 :=
  ⟨(nextInvoiceNumber_policy.1 sampleState sampleDraft [sampleItem] "t1" 2024).1
      (by decide),
   (nextInvoiceNumber_policy.1 initialState sampleDraft [sampleItem] "t1" 2024).2
      (by decide),
   nextInvoiceNumber_policy.2.1 sampleState2 sampleUpdate [sampleItem] "t2",
   nextInvoiceNumber_policy.2.2.1 sampleState2 "INV-2024-0001",
   nextInvoiceNumber_policy.2.2.2.2 sampleState
     [RegOp.addInv sampleDraft [sampleItem] "t1" 2024,
      RegOp.delInv "INV-2024-0001",
      RegOp.addInv sampleDraft [sampleItem] "t3" 2024]⟩

/-! ## Customer id uniqueness and immutability -/

lemma custIds_addCustomer (st : AppState) (data : CustomerData)
    (generatedId now : String) :
    custIds (addCustomer st data generatedId now)
      = custIds st ++ [generatedId] := by
  simp [custIds, addCustomer]

lemma custIds_updateCustomer (st : AppState) (updatedCustomer : Customer)
    (now : String) :
    custIds (updateCustomer st updatedCustomer now) = custIds st := by
  unfold custIds updateCustomer
  simp only [List.map_map]
  apply List.map_congr_left
  intro c _
  simp only [Function.comp_apply, apply_ite Customer.id]
  split
  next h => exact (eq_of_beq h).symm
  next => rfl

lemma map_id_filter (l : List Customer) (customerId : String) :
    (l.filter (fun c => c.id != customerId)).map Customer.id
      = (l.map Customer.id).filter (fun s => s != customerId) := by
  induction l with
  | nil => rfl
  | cons c cs ih =>
    simp only [List.filter_cons, List.map_cons]
    cases hb : c.id != customerId with
    | true => simp [hb, ih]
    | false => simp [hb, ih]

lemma custIds_deleteCustomer (st : AppState) (customerId : String) :
    custIds (deleteCustomer st customerId).2
      = if st.invoices.any (fun inv => inv.customerId == customerId) = true
        then custIds st
        else (custIds st).filter (fun s => s != customerId) := by
  by_cases h : st.invoices.any (fun inv => inv.customerId == customerId) = true
  · simp [deleteCustomer, h]
  · have h' : st.invoices.any (fun inv => inv.customerId == customerId) = false :=
      Bool.not_eq_true _ ▸ Bool.of_not_eq_true h
    simp only [deleteCustomer, h', Bool.false_eq_true, if_false, h]
    exact map_id_filter st.customers customerId

lemma addInvoice_customers (st : AppState) (d : InvoiceDraft)
    (items : List InvoiceItem) (now : String) (currentYear : Nat) :
    (addInvoice st d items now currentYear).2.customers = st.customers := by
  unfold addInvoice
  cases hc : findCustomerById st.customers d.customerId <;> rfl

lemma updateInvoice_customers (st : AppState) (u : InvoiceUpdate)
    (items : List InvoiceItem) (now : String) :
    ((updateInvoice st u items now).getD st).customers = st.customers := by
  unfold updateInvoice
  cases hc : findCustomerById st.customers u.customerId with
  | none => rfl
  | some customer =>
    cases hi : st.invoices.find? (fun inv => inv.id == u.id) <;> rfl

lemma custIds_step_nodup (st : AppState) (op : RegOp)
    (hfresh : match op with
      | .addCust _ generatedId _ => generatedId ∉ custIds st
      | _ => True)
    (hnd : (custIds st).Nodup) : (custIds (step st op)).Nodup := by
  cases op with
  | addCust data generatedId now =>
    rw [show step st (RegOp.addCust data generatedId now)
        = addCustomer st data generatedId now from rfl,
      custIds_addCustomer]
    simp only [List.nodup_append, List.nodup_cons, List.not_mem_nil,
      not_false_iff, List.nodup_nil, and_true, true_and]
    refine ⟨hnd, ?_⟩
    intro a ha hb
    have : a = generatedId := by simpa using hb
    exact hfresh (this ▸ ha)
  | updCust updatedCustomer now =>
    rw [show step st (RegOp.updCust updatedCustomer now)
        = updateCustomer st updatedCustomer now from rfl,
      custIds_updateCustomer]
    exact hnd
  | delCust customerId =>
    rw [show step st (RegOp.delCust customerId)
        = (deleteCustomer st customerId).2 from rfl,
      custIds_deleteCustomer]
    split
    · exact hnd
    · exact hnd.filter _
  | addInv d items now currentYear =>
    have h1 : custIds (step st (RegOp.addInv d items now currentYear))
        = custIds st := by
      unfold custIds
      rw [show step st (RegOp.addInv d items now currentYear)
          = (addInvoice st d items now currentYear).2 from rfl,
        addInvoice_customers]
    rw [h1]; exact hnd
  | updInv u items now =>
    have h1 : custIds (step st (RegOp.updInv u items now)) = custIds st := by
      unfold custIds
      rw [show step st (RegOp.updInv u items now)
          = (updateInvoice st u items now).getD st from rfl,
        updateInvoice_customers]
    rw [h1]; exact hnd
  | delInv invoiceId => exact hnd

lemma foldl_step_nodup : ∀ (ops : List RegOp) (st : AppState),
    FreshTrace st ops → (custIds st).Nodup →
    (custIds (List.foldl step st ops)).Nodup := by
  intro ops
  induction ops with
  | nil => intro st _ h; simpa using h
  | cons op ops ih =>
    intro st hf hnd
    rw [List.foldl_cons]
    exact ih (step st op) hf.2 (custIds_step_nodup st op hf.1 hnd)

/-- Claim C5, counterexample: The claim "in every reachable state no two
customers share an id" is false on the code: `generateId` is
`Math.random`-based and `addCustomer` never checks for collisions, so a
trace in which the environment supplies the same generated id twice
reaches a state with two customers sharing an id. -/
theorem customerId_unique_counterexample :
    ¬ (custIds (List.foldl step initialState
        [RegOp.addCust sampleCustomerData "abc" "t0",
         RegOp.addCust sampleCustomerData "abc" "t0"])).Nodup := by
  decide

/-- Claim C5, amended: A customer's id never changes across operations:
`addCustomer` appends the generated id, `updateCustomer` leaves the id
sequence exactly as it was, `deleteCustomer` at most filters ids out,
and the invoice operations do not touch the customer collection.
Consequently, no two customers share an id in any state reached by a
trace in which every generated id is fresh at insertion time — the
freshness of `Math.random`-generated ids being an environment
assumption the code itself does not enforce. -/
theorem customerId_policy :
    (∀ (st : AppState) (data : CustomerData) (generatedId now : String),
      custIds (addCustomer st data generatedId now)
        = custIds st ++ [generatedId])
      ∧ (∀ (st : AppState) (updatedCustomer : Customer) (now : String),
        custIds (updateCustomer st updatedCustomer now) = custIds st)
      ∧ (∀ (st : AppState) (customerId : String),
        custIds (deleteCustomer st customerId).2
          = if st.invoices.any (fun inv => inv.customerId == customerId) = true
            then custIds st
            else (custIds st).filter (fun s => s != customerId))
      ∧ (∀ (st : AppState) (d : InvoiceDraft) (items : List InvoiceItem)
          (now : String) (currentYear : Nat),
        (addInvoice st d items now currentYear).2.customers = st.customers)
      ∧ (∀ (st : AppState) (u : InvoiceUpdate) (items : List InvoiceItem)
          (now : String),
        ((updateInvoice st u items now).getD st).customers = st.customers)
      ∧ (∀ (st : AppState) (invoiceId : String),
        (deleteInvoice st invoiceId).customers = st.customers)
      ∧ (∀ (ops : List RegOp) (st : AppState),
        FreshTrace st ops → (custIds st).Nodup →
        (custIds (List.foldl step st ops)).Nodup) :=
  ⟨custIds_addCustomer, custIds_updateCustomer, custIds_deleteCustomer,
   addInvoice_customers, updateInvoice_customers, fun _ _ => rfl,
   foldl_step_nodup⟩

/-- Witness for C5: inserting two customers with distinct fresh ids from
the empty initial state keeps the id list duplicate-free. -/
theorem customerId_policy_witness :
    (custIds (List.foldl step initialState
        [RegOp.addCust sampleCustomerData "a1" "t0",
         RegOp.addCust sampleCustomerData "a2" "t0"])).Nodup :=
  customerId_policy.2.2.2.2.2.2
    [RegOp.addCust sampleCustomerData "a1" "t0",
     RegOp.addCust sampleCustomerData "a2" "t0"]
    initialState
    ⟨by decide, by decide, trivial⟩
    (by decide)

end RetailApp
